import Mathlib

/-!
Verification of the hospital-simulation orchestration core.

This file gives a shallow embedding, in Lean 4, of the agent layer
(`hospital_simulation/agents/base_agent.py`), the three concrete agents
(`front_desk_agent.py`, `physician_agent.py`, `radiologist_agent.py`) and the
workflow orchestrator (`agent_graph.py`, method `HospitalGraph.process_patient`),
and proves properties of that embedding.

Modelling conventions:
* Python strings are Lean `String`s; `str.lower`, `str.strip`, the substring
  operator `in` and `str.join` are re-implemented over `List Char`
  (`pyLower`, `pyStrip`, `pyIn`, `pyJoin`) so that everything reduces in the
  kernel.
* A log entry (`_log_step` builds the string "[<timestamp>] <type>: <message>"
  and appends it to the per-agent-instance list `self.logs`) is kept as a
  structure `LogEntry` together with `LogEntry.render`, which produces exactly
  the string the source stores.  Timestamps (`datetime.now()` formatted) are
  supplied by an abstract clock `Clock : Nat → String` giving the timestamp of
  the n-th logging event of the process.
* The completion client (`self.llm.invoke`) is an abstract
  `Client : Nat → String → LLMOutcome`: given the number of calls made so far
  on this agent's client and the prompt, it either raises, returns an object
  with no usable `content` attribute (`invalid`), or returns an object whose
  `content` is some Python value (a string, or a non-string rendered by its
  `str()` as recorded in `PyVal.nonStr`).
* `time.sleep(w)` is recorded by appending `w` to a `sleeps` trace.
* `print` calls have no observable effect on state or results and are omitted.
-/

set_option maxRecDepth 20000

/-- Python character class used by `str.strip()` (ASCII whitespace). -/
def pySpace (c : Char) : Bool :=
  c == ' ' || c == '\t' || c == '\n' || c == '\r' || c == '\x0b' || c == '\x0c'

/-- Python `s.strip()`: drop leading and trailing whitespace. -/
def pyStrip (s : String) : String :=
  String.mk (((s.data.dropWhile pySpace).reverse.dropWhile pySpace).reverse)

/-- Python `s.lower()` (ASCII case folding, as used on the ASCII texts here). -/
def pyLower (s : String) : String :=
  String.mk (s.data.map Char.toLower)

/-- Does the list start with the pattern `p`? (Executable form of `List.IsPrefix`.) -/
def listStartsWith : List Char → List Char → Bool
  | [], _ => true
  | _ :: _, [] => false
  | a :: p, b :: l => a == b && listStartsWith p l

/-- Does `p` occur contiguously inside the second list? (Executable form of
`List.IsInfix`.) -/
def listContains (p : List Char) : List Char → Bool
  | [] => listStartsWith p []
  | b :: l => listStartsWith p (b :: l) || listContains p l

/-- Python `needle in hay` on strings: contiguous-substring test. -/
def pyIn (needle hay : String) : Bool :=
  listContains needle.data hay.data

/-- Python `sep.join(parts)`. -/
def pyJoin (sep : String) : List String → String
  | [] => ""
  | [x] => x
  | x :: y :: xs => x ++ sep ++ pyJoin sep (y :: xs)

theorem listStartsWith_iff (p l : List Char) : listStartsWith p l = true ↔ p <+: l := by
  induction p generalizing l with
  | nil => simp [listStartsWith]
  | cons a p ih =>
    cases l with
    | nil => simp [listStartsWith]
    | cons b l =>
      simp only [listStartsWith, Bool.and_eq_true, beq_iff_eq, ih, List.cons_prefix_cons]

theorem listContains_iff (p l : List Char) : listContains p l = true ↔ p <:+: l := by
  induction l with
  | nil =>
    simp only [listContains, listStartsWith_iff, List.prefix_nil, List.infix_nil]
  | cons b l ih =>
    simp only [listContains, Bool.or_eq_true, listStartsWith_iff, ih, List.infix_cons_iff]

/-- One entry of an agent's log: `_log_step` renders it as
"[<timestamp>] <type>: <message>" and appends it to `self.logs`. -/
structure LogEntry where
  ts : String
  stepType : String
  msg : String
deriving DecidableEq

/-- The string `_log_step` actually stores and prints. -/
def LogEntry.render (e : LogEntry) : String :=
  "[" ++ e.ts ++ "] " ++ e.stepType ++ ": " ++ e.msg

/-- A Python value that may flow out of `response.content`: a string, or some
non-string value carried with its `str()` rendering. -/
inductive PyVal where
  | str (s : String)
  | nonStr (rendering : String)
deriving DecidableEq

/-- Python `str(v)` as used when a `PyVal` is interpolated into a log message. -/
def PyVal.pyToString : PyVal → String
  | .str s => s
  | .nonStr r => r

/-- Outcome of one `self.llm.invoke(messages)` call, as `_call_llm` observes it:
the call raises, or returns a falsy/`content`-less object, or returns an object
whose `content` attribute holds `v`. -/
inductive LLMOutcome where
  | raise (e : String)
  | invalid
  | content (v : PyVal)
deriving DecidableEq

/-- The completion client: from the number of `invoke` calls made so far on this
agent and the prompt, the outcome of the next call. -/
abbrev Client := Nat → String → LLMOutcome

/-- Timestamp source: the formatted `datetime.now()` string of the n-th logging
event of the process. -/
abbrev Clock := Nat → String

/-- The mutable state a `BaseAgent` touches while running: its `self.logs`
buffer, its client-call count, the global logging-event counter feeding the
clock, and the trace of `time.sleep` durations. -/
structure RunCtx where
  logs : List LogEntry
  calls : Nat
  now : Nat
  sleeps : List Nat
deriving DecidableEq

/-- A fresh agent (`BaseAgent.__init__` sets `self.logs = []`) at process start. -/
def RunCtx.init : RunCtx := ⟨[], 0, 0, []⟩

namespace BaseAgent

/-- `BaseAgent._log_step`: timestamp the message and append it to `self.logs`. -/
def log_step (clock : Clock) (st : RunCtx) (stepType msg : String) : RunCtx :=
  { st with logs := st.logs ++ [⟨clock st.now, stepType, msg⟩], now := st.now + 1 }

/-- One `self.llm.invoke` call: consult the client at the current call index. -/
def invokeLLM (client : Client) (prompt : String) (st : RunCtx) : LLMOutcome × RunCtx :=
  (client st.calls prompt, { st with calls := st.calls + 1 })

/-- The fixed fallback text of `BaseAgent._get_fallback_response` (note the
trailing space after "moment." present in the source). -/
def fallbackText : String :=
  "I apologize, but I'm unable to provide a detailed response at the moment. \nPlease proceed with standard protocols and consider the following general guidelines:\n- Monitor patient's vital signs\n- Document all symptoms carefully\n- Consider basic diagnostic tests\n- Consult with colleagues if needed\n- Ensure patient comfort and safety"

/-- `BaseAgent._get_fallback_response`: log the substitution, return the text. -/
def get_fallback_response (clock : Clock) (st : RunCtx) : String × RunCtx :=
  (fallbackText, log_step clock st "FALLBACK" ("Using fallback response:\n" ++ fallbackText))

/-- The `for attempt in range(max_retries)` loop of `BaseAgent._call_llm`,
with `remaining` attempts left (so the current 0-based attempt index is
`maxRetries - remaining`).  Falling out of the loop reaches the
"All attempts failed" fallback. -/
def call_llm_loop (client : Client) (clock : Clock) (prompt : String) (maxRetries : Nat) :
    Nat → RunCtx → PyVal × RunCtx
  | 0, st =>
    let st := log_step clock st "FALLBACK" "All attempts failed. Using fallback response."
    let (f, st) := get_fallback_response clock st
    (PyVal.str f, st)
  | remaining + 1, st =>
    let attempt := maxRetries - (remaining + 1)
    let st := log_step clock st "REQUEST"
      ("Attempt " ++ toString (attempt + 1) ++ "/" ++ toString maxRetries)
    let (out, st) := invokeLLM client prompt st
    match out with
    | .content v =>
      let st := log_step clock st "RESPONSE" ("Received response:\n" ++ v.pyToString)
      (v, st)
    | .invalid =>
      let st := log_step clock st "WARNING" "Empty or invalid response from LLM"
      call_llm_loop client clock prompt maxRetries remaining st
    | .raise e =>
      let st := log_step clock st "ERROR" ("Error: " ++ e)
      if remaining = 0 then
        let st := log_step clock st "FALLBACK" "Max retries reached. Using fallback response."
        let (f, st) := get_fallback_response clock st
        (PyVal.str f, st)
      else
        let wait := 2 ^ attempt
        let st := log_step clock st "RETRY" ("Retrying in " ++ toString wait ++ " seconds...")
        let st := { st with sleeps := st.sleeps ++ [wait] }
        call_llm_loop client clock prompt maxRetries remaining st

/-- `BaseAgent._call_llm`: log model and prompt, then run the retry loop. -/
def call_llm (client : Client) (clock : Clock) (modelName prompt : String)
    (maxRetries : Nat) (st : RunCtx) : PyVal × RunCtx :=
  let st := log_step clock st "MODEL" ("Using " ++ modelName)
  let st := log_step clock st "PROMPT" ("Sending prompt:\n" ++ prompt)
  call_llm_loop client clock prompt maxRetries maxRetries st

end BaseAgent

/-- The dictionary a `BaseAgent.run` call returns: `{"response": ..., "logs": self.logs}`.
Because `"logs"` aliases the live `self.logs` list and `run` logs an OUTPUT entry
after building the dictionary, the returned list is the full buffer including
that OUTPUT entry, rendered as the source stores it. -/
structure AgentResult where
  response : String
  logs : List String
deriving DecidableEq

namespace BaseAgent

/-- `BaseAgent.run` for an agent whose prompt is configured (all three concrete
agents set it in `__init__`): log the inputs, format the prompt (here received
already formatted, together with the `str()` rendering of the inputs dict used
by the INPUT log line), call the LLM with the default `max_retries = 3`,
substitute the fallback for an empty or non-string candidate, and return the
stripped response together with the live log buffer. -/
def run (client : Client) (clock : Clock) (modelName : String)
    (inputsRepr formattedPrompt : String) (st : RunCtx) : AgentResult × RunCtx :=
  let st := log_step clock st "INPUT" ("Received inputs: " ++ inputsRepr)
  let (resp, st) := call_llm client clock modelName formattedPrompt 3 st
  let (response, st) :=
    match resp with
    | PyVal.str s => if s = "" then get_fallback_response clock st else (s, st)
    | PyVal.nonStr _ => get_fallback_response clock st
  let stripped := pyStrip response
  let st := log_step clock st "OUTPUT" ("Final response: " ++ stripped)
  ({ response := stripped, logs := st.logs.map LogEntry.render }, st)

end BaseAgent

/-- The patient demographics the prompt templates read (`patient_info[name]`,
`patient_info[patient_id]`, `patient_info[age]`, `patient_info[gender]`),
rendered as strings as interpolation does. -/
structure PatientInfo where
  name : String
  patient_id : String
  age : String
  gender : String
deriving DecidableEq

/-- Python `repr` of a quote-free string, as it appears when a dict is
interpolated into the INPUT log line. -/
def pyReprStr (s : String) : String := "'" ++ s ++ "'"

/-- Rendering of the `patient_info` dict inside the INPUT log line, with the
keys in the insertion order used throughout the repository. -/
def PatientInfo.pyRepr (pi : PatientInfo) : String :=
  "\x7b'name': " ++ pyReprStr pi.name ++ ", 'patient_id': " ++ pyReprStr pi.patient_id ++
    ", 'age': " ++ pyReprStr pi.age ++ ", 'gender': " ++ pyReprStr pi.gender ++ "\x7d"

/-- The model name every agent is constructed with. -/
def defaultModelName : String := "llama-3.3-70b-versatile"

namespace FrontDeskAgent

/-- The front desk prompt template of `front_desk_agent.py`, formatted with its
two inputs (`patient_info`, `complaint`). -/
def formattedPrompt (pi : PatientInfo) (complaint : String) : String :=
  "You are a professional hospital front desk agent. Your role is to:\n1. Greet patients professionally\n2. Review their information and symptoms\n3. Assess urgency level\n4. Direct them to appropriate department\n5. Provide clear instructions\n\nPatient Information:\n- Name: " ++ pi.name ++ "\n- ID: " ++ pi.patient_id ++ "\n- Age: " ++ pi.age ++ "\n- Gender: " ++ pi.gender ++ "\n\nPrimary Complaints/Symptoms:\n" ++ complaint ++ "\n\nBased on the information provided, please:\n1. Greet the patient professionally\n2. Assess the urgency level (Low/Medium/High/Critical)\n3. Recommend the appropriate department\n4. Provide clear next steps\n5. Note any special considerations\n\nRespond in a professional, empathetic manner, structured with clear sections.\n"

/-- `str()` of the inputs dict `run` receives from `FrontDeskAgent.process_patient`. -/
def inputsRepr (pi : PatientInfo) (complaint : String) : String :=
  "\x7b'patient_info': " ++ pi.pyRepr ++ ", 'complaint': " ++ pyReprStr complaint ++ "\x7d"

/-- `FrontDeskAgent.process_patient`: run the base agent on the formatted
front-desk prompt. -/
def process_patient (client : Client) (clock : Clock) (pi : PatientInfo)
    (complaint : String) (st : RunCtx) : AgentResult × RunCtx :=
  BaseAgent.run client clock defaultModelName (inputsRepr pi complaint)
    (formattedPrompt pi complaint) st

end FrontDeskAgent

namespace PhysicianAgent

/-- The physician prompt template of `physician_agent.py`, formatted with its
inputs (`patient_info`, `symptoms`, `medical_records`). -/
def formattedPrompt (pi : PatientInfo) (symptoms medical_records : String) : String :=
  "You are an experienced physician conducting a patient examination. Your role is to:\n1. Review patient information thoroughly\n2. Analyze symptoms and history\n3. Provide initial diagnosis\n4. Recommend necessary tests/imaging\n5. Outline treatment plan\n\nPatient Information:\n- Name: " ++ pi.name ++ "\n- ID: " ++ pi.patient_id ++ "\n- Age: " ++ pi.age ++ "\n- Gender: " ++ pi.gender ++ "\n\nCurrent Symptoms:\n" ++ symptoms ++ "\n\nMedical History:\n" ++ medical_records ++ "\n\nPlease provide a comprehensive assessment including:\n1. Initial Evaluation\n   - Review of symptoms\n   - Physical examination findings\n   - Vital signs needed\n\n2. Preliminary Diagnosis\n   - Primary concerns\n   - Differential diagnoses\n   - Risk factors\n\n3. Recommended Tests\n   - Laboratory tests needed\n   - Imaging requirements (if any)\n   - Specialist consultations (if needed)\n\n4. Treatment Plan\n   - Immediate interventions\n   - Medications (if needed)\n   - Follow-up requirements\n\n5. Patient Instructions\n   - Care instructions\n   - Warning signs to watch for\n   - Follow-up timeline\n\nProvide your assessment in a clear, structured format, using medical terminology while ensuring patient understanding.\n"

/-- `str()` of the inputs dict `run` receives from `PhysicianAgent.examine_patient`. -/
def inputsRepr (pi : PatientInfo) (symptoms medical_records : String) : String :=
  "\x7b'patient_info': " ++ pi.pyRepr ++ ", 'symptoms': " ++ pyReprStr symptoms ++
    ", 'medical_records': " ++ pyReprStr medical_records ++ "\x7d"

/-- `PhysicianAgent.examine_patient`: run the base agent on the formatted
physician prompt. -/
def examine_patient (client : Client) (clock : Clock) (pi : PatientInfo)
    (symptoms medical_records : String) (st : RunCtx) : AgentResult × RunCtx :=
  BaseAgent.run client clock defaultModelName (inputsRepr pi symptoms medical_records)
    (formattedPrompt pi symptoms medical_records) st

end PhysicianAgent

namespace RadiologistAgent

/-- The rewrite `RadiologistAgent.analyze_imaging` applies to `imaging_request`
before formatting: an `if "PNEUMONIA" in ... / elif "NORMAL" in ...` chain. -/
def rewriteImagingRequest (imaging_request : String) : String :=
  if pyIn "PNEUMONIA" imaging_request then
    "X-ray analysis indicates high probability of pneumonia. Detailed results: " ++ imaging_request
  else if pyIn "NORMAL" imaging_request then
    "X-ray analysis suggests normal findings. Detailed results: " ++ imaging_request
  else imaging_request

/-- The radiologist prompt template of `radiologist_agent.py`, formatted with
its inputs (`patient_info`, `imaging_request`, `clinical_history`). -/
def formattedPrompt (pi : PatientInfo) (imaging_request clinical_history : String) : String :=
  "You are a specialized radiologist analyzing medical imaging results. Your role is to:\n1. Review patient information\n2. Analyze imaging findings\n3. Provide detailed interpretation\n4. Make clinical recommendations\n5. Suggest follow-up imaging if needed\n\nPatient Information:\n- Name: " ++ pi.name ++ "\n- ID: " ++ pi.patient_id ++ "\n- Age: " ++ pi.age ++ "\n- Gender: " ++ pi.gender ++ "\n\nClinical History:\n" ++ clinical_history ++ "\n\nImaging Analysis Results:\n" ++ imaging_request ++ "\n\nPlease provide a comprehensive radiology report including:\n1. Examination Details\n   - Type of imaging performed\n   - Image quality assessment\n   - Patient positioning\n\n2. Findings\n   - Anatomical structures\n   - Abnormalities detected\n   - Comparison with normal findings\n\n3. Interpretation\n   - Clinical significance\n   - Correlation with symptoms\n   - Differential considerations\n\n4. Recommendations\n   - Additional views needed\n   - Follow-up imaging timeline\n   - Clinical correlation advised\n\n5. Impression\n   - Summary of key findings\n   - Level of concern\n   - Critical findings (if any)\n\nProvide your report in a clear, structured format using standard radiological terminology while ensuring clarity for other healthcare providers.\n"

/-- `str()` of the inputs dict `run` receives from `RadiologistAgent.analyze_imaging`
(the dict holds the already rewritten `imaging_request`). -/
def inputsRepr (pi : PatientInfo) (imaging_request clinical_history : String) : String :=
  "\x7b'patient_info': " ++ pi.pyRepr ++ ", 'imaging_request': " ++ pyReprStr imaging_request ++
    ", 'clinical_history': " ++ pyReprStr clinical_history ++ "\x7d"

/-- `RadiologistAgent.analyze_imaging`: rewrite the imaging request, then run
the base agent on the formatted radiologist prompt. -/
def analyze_imaging (client : Client) (clock : Clock) (pi : PatientInfo)
    (imaging_request clinical_history : String) (st : RunCtx) : AgentResult × RunCtx :=
  let req := rewriteImagingRequest imaging_request
  BaseAgent.run client clock defaultModelName (inputsRepr pi req clinical_history)
    (formattedPrompt pi req clinical_history) st

end RadiologistAgent

/-- The branch predicate `HospitalGraph._needs_imaging` (agent_graph.py lines
127-129), which is also exactly the inline test of `process_patient` line 167:
`"imaging" in <physician response>.lower()`. -/
def needs_imaging (response : String) : Bool :=
  pyIn "imaging" (pyLower response)

/-- The dictionary `HospitalGraph.process_patient` returns (agent_graph.py
lines 222-231 on success, 244-253 on error). -/
structure Report where
  front_desk_assessment : String
  physician_assessment : String
  radiology_report : String
  front_desk_logs : List String
  physician_logs : List String
  radiologist_logs : List String
  formatted_assessment : String
  formatted_logs : String
deriving DecidableEq

/-- The `medical_assessment` markdown of `process_patient` (lines 178-191): the
radiology section is appended only when `responses["radiology_report"]` is a
non-empty string. -/
def assessmentDoc (fd ph rad : String) : String :=
  let base := "\n# Medical Assessment Report\n\n## 1. Front Desk Assessment\n" ++ fd ++
    "\n\n## 2. Physician Assessment\n" ++ ph ++ "\n"
  if rad = "" then base else base ++ "\n## 3. Radiology Report\n" ++ rad ++ "\n"

/-- The `processing_logs` markdown of `process_patient` (lines 194-213): one
fenced block per stage, the radiologist block only when
`responses["radiologist_logs"]` is a non-empty list; lists are joined with
`chr(10)`. -/
def logsDoc (fdLogs phLogs radLogs : List String) : String :=
  let base := "\n# Processing Logs\n\n## Front Desk Logs\n```\n" ++ pyJoin "\n" fdLogs ++
    "\n```\n\n## Physician Logs\n```\n" ++ pyJoin "\n" phLogs ++ "\n```\n"
  if radLogs = [] then base else
    base ++ "\n## Radiologist Logs\n```\n" ++ pyJoin "\n" radLogs ++ "\n```\n"

/-- The success-path return value of `process_patient` (lines 222-231). -/
def buildReport (fd ph rad : String) (fdLogs phLogs radLogs : List String) : Report :=
  { front_desk_assessment := fd
    physician_assessment := ph
    radiology_report := rad
    front_desk_logs := fdLogs
    physician_logs := phLogs
    radiologist_logs := radLogs
    formatted_assessment := assessmentDoc fd ph rad
    formatted_logs := logsDoc fdLogs phLogs radLogs }

/-- The `except Exception` return value of `process_patient` (lines 233-253):
every field of the dictionary is replaced by the same error message. -/
def errorReport (e : String) : Report :=
  let error_msg := "Error in processing: " ++ e
  let error_assessment := "\n# Error in Processing\n\nAn error occurred while processing the patient:\n```\n" ++
    error_msg ++ "\n```\n"
  { front_desk_assessment := error_msg
    physician_assessment := error_msg
    radiology_report := error_msg
    front_desk_logs := [error_msg]
    physician_logs := [error_msg]
    radiologist_logs := [error_msg]
    formatted_assessment := error_assessment
    formatted_logs := error_assessment }

namespace HospitalGraph

/-- `HospitalGraph.process_patient` (agent_graph.py lines 136-253) with the
three stage invocations abstracted as `Except`-valued outcomes (`.error e`
models the stage call raising an exception whose `str()` is `e`).  The whole
body runs inside a single `try`: a raising stage falls through to the
`except Exception` handler, which returns `errorReport`; otherwise the
physician's response decides whether the radiologist outcome is consumed at
all, and the report is assembled from whatever the stages returned (the
radiology fields keep their initial empty values on the skip path). -/
def process_patient_stages (fd ph rad : Except String AgentResult) : Report :=
  match fd with
  | .error e => errorReport e
  | .ok fdr =>
    match ph with
    | .error e => errorReport e
    | .ok phr =>
      if needs_imaging phr.response then
        match rad with
        | .error e => errorReport e
        | .ok radr =>
          buildReport fdr.response phr.response radr.response fdr.logs phr.logs radr.logs
      else
        buildReport fdr.response phr.response "" fdr.logs phr.logs []

end HospitalGraph

/-- The state of one `HospitalGraph` instance: the three agents constructed in
`__init__` (each with its own live `self.logs` buffer and completion client),
plus the global logging-event counter and sleep trace. -/
structure GraphState where
  fdLogs : List LogEntry
  phLogs : List LogEntry
  radLogs : List LogEntry
  fdCalls : Nat
  phCalls : Nat
  radCalls : Nat
  now : Nat
  sleeps : List Nat
deriving DecidableEq

/-- A freshly constructed `HospitalGraph` (all agent log buffers empty). -/
def GraphState.init : GraphState := ⟨[], [], [], 0, 0, 0, 0, []⟩

/-- The front-desk agent's view of the graph state. -/
def GraphState.fdCtx (g : GraphState) : RunCtx := ⟨g.fdLogs, g.fdCalls, g.now, g.sleeps⟩

/-- The physician agent's view of the graph state. -/
def GraphState.phCtx (g : GraphState) : RunCtx := ⟨g.phLogs, g.phCalls, g.now, g.sleeps⟩

/-- The radiologist agent's view of the graph state. -/
def GraphState.radCtx (g : GraphState) : RunCtx := ⟨g.radLogs, g.radCalls, g.now, g.sleeps⟩

/-- Write the front-desk agent's view back into the graph state. -/
def GraphState.setFd (g : GraphState) (c : RunCtx) : GraphState :=
  { g with fdLogs := c.logs, fdCalls := c.calls, now := c.now, sleeps := c.sleeps }

/-- Write the physician agent's view back into the graph state. -/
def GraphState.setPh (g : GraphState) (c : RunCtx) : GraphState :=
  { g with phLogs := c.logs, phCalls := c.calls, now := c.now, sleeps := c.sleeps }

/-- Write the radiologist agent's view back into the graph state. -/
def GraphState.setRad (g : GraphState) (c : RunCtx) : GraphState :=
  { g with radLogs := c.logs, radCalls := c.calls, now := c.now, sleeps := c.sleeps }

namespace HospitalGraph

/-- `HospitalGraph.process_patient` (lines 136-253) over the embedded agents:
front desk, then physician, then — exactly when `"imaging" in
physician_result["response"].lower()` (line 167) — the radiologist, whose
input `imaging_request` is the physician's response text; finally the report
is assembled.  The embedded agents are total (every exception of the
completion client is already handled inside `_call_llm`), so the
`except Exception` branch of the source is unreachable here; the raising case
is covered by `process_patient_stages`. -/
def process_patient (fdClient phClient radClient : Client) (clock : Clock)
    (pi : PatientInfo) (complaint medical_records : String) (g : GraphState) :
    Report × GraphState :=
  let (fdr, c) := FrontDeskAgent.process_patient fdClient clock pi complaint g.fdCtx
  let g := g.setFd c
  let (phr, c) := PhysicianAgent.examine_patient phClient clock pi complaint
    medical_records g.phCtx
  let g := g.setPh c
  if needs_imaging phr.response then
    let (radr, c) := RadiologistAgent.analyze_imaging radClient clock pi phr.response
      medical_records g.radCtx
    let g := g.setRad c
    (buildReport fdr.response phr.response radr.response fdr.logs phr.logs radr.logs, g)
  else
    (buildReport fdr.response phr.response "" fdr.logs phr.logs [], g)

end HospitalGraph

/-- C2: `needs_imaging(r)` is true iff the case-insensitive text of `r`
contains the substring "imaging" (stated against `List.IsInfix`, Lean's
specification of a contiguous substring); it is true for
"Recommend chest IMAGING" and false for "No further tests needed"; and the
orchestrator takes the Radiologist edge exactly when this predicate holds on
the Physician stage's response: when it is false the result does not depend on
the radiologist outcome at all, and when it is true the radiologist outcome is
consumed into the report. -/
theorem C2_branch_predicate :
    (∀ r : String, needs_imaging r = true ↔ "imaging".data <:+: (pyLower r).data) ∧
    needs_imaging "Recommend chest IMAGING" = true ∧
    needs_imaging "No further tests needed" = false ∧
    (∀ (fdr phr : AgentResult) (rad rad' : Except String AgentResult),
      needs_imaging phr.response = false →
        HospitalGraph.process_patient_stages (.ok fdr) (.ok phr) rad =
          HospitalGraph.process_patient_stages (.ok fdr) (.ok phr) rad') ∧
    (∀ fdr phr radr : AgentResult,
      needs_imaging phr.response = true →
        HospitalGraph.process_patient_stages (.ok fdr) (.ok phr) (.ok radr) =
          buildReport fdr.response phr.response radr.response fdr.logs phr.logs radr.logs) := by
  refine ⟨fun r => ?_, by decide, by decide, fun fdr phr rad rad' h => ?_, fun fdr phr radr h => ?_⟩
  · simp only [needs_imaging, pyIn, listContains_iff]
  · simp [HospitalGraph.process_patient_stages, h]
  · simp [HospitalGraph.process_patient_stages, h]

/-- Witness for C2 at concrete inputs: with a physician response lacking
"imaging" the report ignores the radiologist outcome (even a raising one);
with a physician response containing "imaging" the radiologist outcome is
consumed into the report. -/
theorem C2_branch_predicate_witness :
    HospitalGraph.process_patient_stages (.ok ⟨"a", []⟩) (.ok ⟨"No further tests needed", []⟩)
        (.error "x") =
      HospitalGraph.process_patient_stages (.ok ⟨"a", []⟩) (.ok ⟨"No further tests needed", []⟩)
        (.ok ⟨"r", []⟩) ∧
    HospitalGraph.process_patient_stages (.ok ⟨"a", []⟩) (.ok ⟨"Recommend chest IMAGING", []⟩)
        (.ok ⟨"r", ["L"]⟩) =
      buildReport "a" "Recommend chest IMAGING" "r" [] [] ["L"] :=
  ⟨C2_branch_predicate.2.2.2.1 ⟨"a", []⟩ ⟨"No further tests needed", []⟩ _ _ (by decide),
   C2_branch_predicate.2.2.2.2 ⟨"a", []⟩ ⟨"Recommend chest IMAGING", []⟩ ⟨"r", ["L"]⟩ (by decide)⟩

/-- C8 counterexample: the input "PNEUMONIA NORMAL" contains the marker
"NORMAL", yet `analyze_imaging` does not prepend the normal-findings sentence
to it (the `elif` gives "PNEUMONIA" precedence), so the claim's clause "for
every input text containing NORMAL, a sentence noting normal findings is
prepended" is false on the code. -/
theorem C8_counterexample :
    pyIn "NORMAL" "PNEUMONIA NORMAL" = true ∧
    RadiologistAgent.rewriteImagingRequest "PNEUMONIA NORMAL" ≠
      "X-ray analysis suggests normal findings. Detailed results: " ++ "PNEUMONIA NORMAL" :=
  ⟨by decide, by decide⟩

/-- C8 (amended): the two marker checks are ordered (`if` / `elif`): a text
containing "PNEUMONIA" gets the pneumonia sentence prepended; a text containing
"NORMAL" but not "PNEUMONIA" gets the normal-findings sentence prepended; a
text containing neither passes through unchanged. -/
theorem C8_rewrite_imaging_request (t : String) :
    (pyIn "PNEUMONIA" t = true →
      RadiologistAgent.rewriteImagingRequest t =
        "X-ray analysis indicates high probability of pneumonia. Detailed results: " ++ t) ∧
    (pyIn "PNEUMONIA" t = false → pyIn "NORMAL" t = true →
      RadiologistAgent.rewriteImagingRequest t =
        "X-ray analysis suggests normal findings. Detailed results: " ++ t) ∧
    (pyIn "PNEUMONIA" t = false → pyIn "NORMAL" t = false →
      RadiologistAgent.rewriteImagingRequest t = t) := by
  refine ⟨fun h => ?_, fun h1 h2 => ?_, fun h1 h2 => ?_⟩ <;>
    simp [RadiologistAgent.rewriteImagingRequest, *]

/-- Witness for C8 at concrete inputs, one per case of the rewrite. -/
theorem C8_rewrite_imaging_request_witness :
    RadiologistAgent.rewriteImagingRequest "scan: PNEUMONIA" =
      "X-ray analysis indicates high probability of pneumonia. Detailed results: " ++
        "scan: PNEUMONIA" ∧
    RadiologistAgent.rewriteImagingRequest "scan: NORMAL" =
      "X-ray analysis suggests normal findings. Detailed results: " ++ "scan: NORMAL" ∧
    RadiologistAgent.rewriteImagingRequest "scan: unclear" = "scan: unclear" :=
  ⟨(C8_rewrite_imaging_request "scan: PNEUMONIA").1 (by decide),
   (C8_rewrite_imaging_request "scan: NORMAL").2.1 (by decide) (by decide),
   (C8_rewrite_imaging_request "scan: unclear").2.2 (by decide) (by decide)⟩

/-- C4: with the default `max_retries = 3` and a completion client that raises
on its first two calls and returns a response on the third, `_call_llm` (on a
fresh agent) returns that third response; the log holds exactly 3 REQUEST
entries and exactly 2 RETRY entries, announcing waits of 1 and then 2 seconds;
and the sleeps actually performed are 1 s then 2 s (`2 ** attempt`). -/
theorem C4_retry_backoff (client : Client) (clock : Clock) (prompt e0 e1 r : String)
    (h0 : client 0 prompt = .raise e0)
    (h1 : client 1 prompt = .raise e1)
    (h2 : client 2 prompt = .content (.str r)) :
    (BaseAgent.call_llm client clock defaultModelName prompt 3 RunCtx.init).1 = PyVal.str r ∧
    ((BaseAgent.call_llm client clock defaultModelName prompt 3 RunCtx.init).2.logs.filter
        (fun e => e.stepType == "REQUEST")).length = 3 ∧
    ((BaseAgent.call_llm client clock defaultModelName prompt 3 RunCtx.init).2.logs.filter
        (fun e => e.stepType == "RETRY")).length = 2 ∧
    ((BaseAgent.call_llm client clock defaultModelName prompt 3 RunCtx.init).2.logs.filter
        (fun e => e.stepType == "RETRY")).map (fun e => e.msg) =
      ["Retrying in 1 seconds...", "Retrying in 2 seconds..."] ∧
    (BaseAgent.call_llm client clock defaultModelName prompt 3 RunCtx.init).2.sleeps = [1, 2] := by
  simp [BaseAgent.call_llm, BaseAgent.call_llm_loop, BaseAgent.log_step, BaseAgent.invokeLLM,
    RunCtx.init, h0, h1, h2]
  exact ⟨rfl, rfl⟩

/-- Witness for C4: a concrete client that raises twice ("service down") and
then answers "Here is my assessment.". -/
theorem C4_retry_backoff_witness :
    (BaseAgent.call_llm
        (fun n _ => if n = 0 then .raise "service down" else if n = 1 then .raise "service down"
          else .content (.str "Here is my assessment."))
        (fun _ => "2024-01-01 00:00:00") defaultModelName "p" 3 RunCtx.init).1 =
      PyVal.str "Here is my assessment." ∧
    ((BaseAgent.call_llm
        (fun n _ => if n = 0 then .raise "service down" else if n = 1 then .raise "service down"
          else .content (.str "Here is my assessment."))
        (fun _ => "2024-01-01 00:00:00") defaultModelName "p" 3 RunCtx.init).2.logs.filter
        (fun e => e.stepType == "REQUEST")).length = 3 ∧
    ((BaseAgent.call_llm
        (fun n _ => if n = 0 then .raise "service down" else if n = 1 then .raise "service down"
          else .content (.str "Here is my assessment."))
        (fun _ => "2024-01-01 00:00:00") defaultModelName "p" 3 RunCtx.init).2.logs.filter
        (fun e => e.stepType == "RETRY")).length = 2 ∧
    ((BaseAgent.call_llm
        (fun n _ => if n = 0 then .raise "service down" else if n = 1 then .raise "service down"
          else .content (.str "Here is my assessment."))
        (fun _ => "2024-01-01 00:00:00") defaultModelName "p" 3 RunCtx.init).2.logs.filter
        (fun e => e.stepType == "RETRY")).map (fun e => e.msg) =
      ["Retrying in 1 seconds...", "Retrying in 2 seconds..."] ∧
    (BaseAgent.call_llm
        (fun n _ => if n = 0 then .raise "service down" else if n = 1 then .raise "service down"
          else .content (.str "Here is my assessment."))
        (fun _ => "2024-01-01 00:00:00") defaultModelName "p" 3 RunCtx.init).2.sleeps = [1, 2] :=
  C4_retry_backoff _ _ "p" "service down" "service down" "Here is my assessment."
    (by decide) (by decide) (by decide)

/-- C1 counterexample: when the physician stage raises (here with message
"boom") inside `process_patient`, the exception reaches the single top-level
`except Exception` handler, whose report replaces every field — including the
already produced front-desk assessment — by the error message: the front-desk
assessment "Front desk triage note" does not remain intact in the returned
report, contrary to the claim. -/
theorem C1_counterexample :
    (HospitalGraph.process_patient_stages (.ok ⟨"Front desk triage note", ["fd log line"]⟩)
        (.error "boom") (.ok ⟨"rad", []⟩)).front_desk_assessment =
      "Error in processing: boom" ∧
    "Error in processing: boom" ≠ "Front desk triage note" :=
  ⟨rfl, by decide⟩

/-- C1 (amended): if the Physician stage raises during `process_patient`, no
exception propagates to the caller and the Radiologist is never invoked (the
result does not depend on the radiologist outcome), but the stage failure is
not contained per-stage: the whole run falls into the top-level handler and
every field of the returned report — the front-desk assessment included — is
replaced by the uniform error message. -/
theorem C1_physician_raise (fdr : AgentResult) (e : String)
    (rad rad' : Except String AgentResult) :
    HospitalGraph.process_patient_stages (.ok fdr) (.error e) rad = errorReport e ∧
    HospitalGraph.process_patient_stages (.ok fdr) (.error e) rad =
      HospitalGraph.process_patient_stages (.ok fdr) (.error e) rad' ∧
    (errorReport e).front_desk_assessment = "Error in processing: " ++ e := by
  simp [HospitalGraph.process_patient_stages, errorReport]

/-- Predicate picking the log entries of one step type. -/
def isStepType (t : String) (e : LogEntry) : Bool := e.stepType == t

/-- Behaviour of the `_call_llm` retry loop under a client that raises on every
call: the fallback text is returned, one REQUEST entry is logged per remaining
attempt, exactly two FALLBACK entries are appended ("Max retries reached" /
"All attempts failed", then the `_get_fallback_response` entry), and a FALLBACK
entry recording the substitution is in the log. -/
theorem call_llm_loop_always_raise (client : Client) (clock : Clock) (prompt : String)
    (maxRetries : Nat) (h : ∀ n, ∃ e, client n prompt = LLMOutcome.raise e) :
    ∀ (remaining : Nat) (st : RunCtx),
      (BaseAgent.call_llm_loop client clock prompt maxRetries remaining st).1 =
        PyVal.str BaseAgent.fallbackText ∧
      ((BaseAgent.call_llm_loop client clock prompt maxRetries remaining st).2.logs.filter
          (isStepType "REQUEST")).length =
        (st.logs.filter (isStepType "REQUEST")).length + remaining ∧
      ((BaseAgent.call_llm_loop client clock prompt maxRetries remaining st).2.logs.filter
          (isStepType "FALLBACK")).length =
        (st.logs.filter (isStepType "FALLBACK")).length + 2 ∧
      (∃ t, LogEntry.mk t "FALLBACK" ("Using fallback response:\n" ++ BaseAgent.fallbackText) ∈
        (BaseAgent.call_llm_loop client clock prompt maxRetries remaining st).2.logs) := by
  intro remaining
  induction remaining with
  | zero =>
    intro st
    simp [BaseAgent.call_llm_loop, BaseAgent.get_fallback_response, BaseAgent.log_step,
      List.filter_append, isStepType]
    exact ⟨clock (st.now + 1), Or.inr (Or.inr rfl)⟩
  | succ n ih =>
    intro st
    obtain ⟨e, he⟩ := h st.calls
    by_cases hn : n = 0
    · subst hn
      simp [BaseAgent.call_llm_loop, BaseAgent.invokeLLM, BaseAgent.get_fallback_response,
        BaseAgent.log_step, List.filter_append, isStepType, he]
      exact ⟨clock (st.now + 1 + 1 + 1), Or.inr (Or.inr rfl)⟩
    · simp only [BaseAgent.call_llm_loop, BaseAgent.invokeLLM, BaseAgent.log_step, he, hn,
        if_neg, ite_false]
      refine ⟨(ih _).1, ?_, ?_, (ih _).2.2.2⟩
      · rw [(ih _).2.1]
        simp [List.filter_append, isStepType]
        omega
      · rw [(ih _).2.2.1]
        simp [List.filter_append, isStepType]

/-- C5: with a completion client that raises on every call, `_call_llm` on a
fresh agent makes exactly `max_retries` attempts (REQUEST entries), returns
exactly the fixed fallback text, and its log contains a FALLBACK entry
recording the substitution. -/
theorem C5_fallback_exhaustion (client : Client) (clock : Clock)
    (modelName prompt : String) (maxRetries : Nat)
    (h : ∀ n, ∃ e, client n prompt = LLMOutcome.raise e) :
    (BaseAgent.call_llm client clock modelName prompt maxRetries RunCtx.init).1 =
      PyVal.str BaseAgent.fallbackText ∧
    ((BaseAgent.call_llm client clock modelName prompt maxRetries RunCtx.init).2.logs.filter
        (isStepType "REQUEST")).length = maxRetries ∧
    (∃ t, LogEntry.mk t "FALLBACK" ("Using fallback response:\n" ++ BaseAgent.fallbackText) ∈
      (BaseAgent.call_llm client clock modelName prompt maxRetries RunCtx.init).2.logs) := by
  simp only [BaseAgent.call_llm]
  refine ⟨(call_llm_loop_always_raise client clock prompt maxRetries h _ _).1, ?_,
    (call_llm_loop_always_raise client clock prompt maxRetries h _ _).2.2.2⟩
  rw [(call_llm_loop_always_raise client clock prompt maxRetries h _ _).2.1]
  simp [BaseAgent.log_step, RunCtx.init, isStepType]

/-- Witness for C5: a concrete client that always raises "llm down", with
`max_retries = 3`. -/
theorem C5_fallback_exhaustion_witness :
    (BaseAgent.call_llm (fun _ _ => .raise "llm down") (fun _ => "2024-01-01 00:00:00")
        defaultModelName "p" 3 RunCtx.init).1 = PyVal.str BaseAgent.fallbackText ∧
    ((BaseAgent.call_llm (fun _ _ => .raise "llm down") (fun _ => "2024-01-01 00:00:00")
        defaultModelName "p" 3 RunCtx.init).2.logs.filter
        (isStepType "REQUEST")).length = 3 ∧
    (∃ t, LogEntry.mk t "FALLBACK" ("Using fallback response:\n" ++ BaseAgent.fallbackText) ∈
      (BaseAgent.call_llm (fun _ _ => .raise "llm down") (fun _ => "2024-01-01 00:00:00")
        defaultModelName "p" 3 RunCtx.init).2.logs) :=
  C5_fallback_exhaustion _ _ defaultModelName "p" 3 (fun _ => ⟨"llm down", rfl⟩)

/-- Under a client that never raises, the retry loop never sleeps: the invalid-
response path continues directly to the next attempt. -/
theorem call_llm_loop_no_raise_sleeps (client : Client) (clock : Clock) (prompt : String)
    (maxRetries : Nat) (h : ∀ n e, client n prompt ≠ LLMOutcome.raise e) :
    ∀ (remaining : Nat) (st : RunCtx),
      (BaseAgent.call_llm_loop client clock prompt maxRetries remaining st).2.sleeps =
        st.sleeps := by
  intro remaining
  induction remaining with
  | zero =>
    intro st
    simp [BaseAgent.call_llm_loop, BaseAgent.get_fallback_response, BaseAgent.log_step]
  | succ n ih =>
    intro st
    cases hc : client st.calls prompt with
    | raise e => exact absurd hc (h _ _)
    | invalid =>
      simp only [BaseAgent.call_llm_loop, BaseAgent.invokeLLM, BaseAgent.log_step, hc]
      rw [ih]
    | content v =>
      simp [BaseAgent.call_llm_loop, BaseAgent.invokeLLM, BaseAgent.log_step, hc]

/-- The retry loop never returns an invalid attempt's result: its value is the
fallback text or the `content` of some client call. -/
theorem call_llm_loop_value (client : Client) (clock : Clock) (prompt : String)
    (maxRetries : Nat) :
    ∀ (remaining : Nat) (st : RunCtx),
      (BaseAgent.call_llm_loop client clock prompt maxRetries remaining st).1 =
          PyVal.str BaseAgent.fallbackText ∨
        ∃ n, client n prompt =
          LLMOutcome.content
            ((BaseAgent.call_llm_loop client clock prompt maxRetries remaining st).1) := by
  intro remaining
  induction remaining with
  | zero =>
    intro st
    left
    simp [BaseAgent.call_llm_loop, BaseAgent.get_fallback_response, BaseAgent.log_step]
  | succ n ih =>
    intro st
    cases hc : client st.calls prompt with
    | raise e =>
      by_cases hn : n = 0
      · subst hn
        left
        simp [BaseAgent.call_llm_loop, BaseAgent.invokeLLM, BaseAgent.log_step,
          BaseAgent.get_fallback_response, hc]
      · simp only [BaseAgent.call_llm_loop, BaseAgent.invokeLLM, BaseAgent.log_step, hc, hn,
          if_neg, ite_false]
        exact ih _
    | invalid =>
      simp only [BaseAgent.call_llm_loop, BaseAgent.invokeLLM, BaseAgent.log_step, hc]
      exact ih _
    | content v =>
      right
      refine ⟨st.calls, ?_⟩
      simp [BaseAgent.call_llm_loop, BaseAgent.invokeLLM, BaseAgent.log_step, hc]

/-- If the candidate `_call_llm` produced for `run` is the empty string or a
non-string, `run` substitutes the fixed fallback response. -/
theorem run_fallback_substitution (client : Client) (clock : Clock)
    (modelName inputsRepr formattedPrompt : String) (st : RunCtx)
    (h : (BaseAgent.call_llm client clock modelName formattedPrompt 3
          (BaseAgent.log_step clock st "INPUT" ("Received inputs: " ++ inputsRepr))).1 =
        PyVal.str "" ∨
      ∃ s, (BaseAgent.call_llm client clock modelName formattedPrompt 3
          (BaseAgent.log_step clock st "INPUT" ("Received inputs: " ++ inputsRepr))).1 =
        PyVal.nonStr s) :
    (BaseAgent.run client clock modelName inputsRepr formattedPrompt st).1.response =
      pyStrip BaseAgent.fallbackText := by
  cases hr : BaseAgent.call_llm client clock modelName formattedPrompt 3
      (BaseAgent.log_step clock st "INPUT" ("Received inputs: " ++ inputsRepr)) with
  | mk resp st2 =>
    rw [hr] at h
    simp only at h
    simp only [BaseAgent.run, hr]
    rcases h with h | ⟨s, h⟩ <;> subst h <;>
      simp [BaseAgent.get_fallback_response, BaseAgent.log_step]

/-- C6: (1) with a client that never raises — so every failed attempt is an
empty/invalid response — `_call_llm` performs no sleep at all: invalid attempts
continue without delay; (2) an empty/invalid response is never returned as an
attempt's result: the value `_call_llm` produces is either the fallback text or
the `content` of some actual client call; (3) if the final candidate response
is the empty string or not a string, `run` substitutes the fixed fallback
response. -/
theorem C6_invalid_response_policy :
    (∀ (client : Client) (clock : Clock) (modelName prompt : String) (maxRetries : Nat)
        (st : RunCtx), (∀ n e, client n prompt ≠ LLMOutcome.raise e) →
      (BaseAgent.call_llm client clock modelName prompt maxRetries st).2.sleeps = st.sleeps) ∧
    (∀ (client : Client) (clock : Clock) (modelName prompt : String) (maxRetries : Nat)
        (st : RunCtx),
      (BaseAgent.call_llm client clock modelName prompt maxRetries st).1 =
          PyVal.str BaseAgent.fallbackText ∨
        ∃ n, client n prompt =
          LLMOutcome.content
            ((BaseAgent.call_llm client clock modelName prompt maxRetries st).1)) ∧
    (∀ (client : Client) (clock : Clock) (modelName inputsRepr formattedPrompt : String)
        (st : RunCtx),
      ((BaseAgent.call_llm client clock modelName formattedPrompt 3
            (BaseAgent.log_step clock st "INPUT" ("Received inputs: " ++ inputsRepr))).1 =
          PyVal.str "" ∨
        ∃ s, (BaseAgent.call_llm client clock modelName formattedPrompt 3
            (BaseAgent.log_step clock st "INPUT" ("Received inputs: " ++ inputsRepr))).1 =
          PyVal.nonStr s) →
      (BaseAgent.run client clock modelName inputsRepr formattedPrompt st).1.response =
        pyStrip BaseAgent.fallbackText) := by
  refine ⟨fun client clock modelName prompt maxRetries st h => ?_,
    fun client clock modelName prompt maxRetries st => ?_, run_fallback_substitution⟩
  · simp only [BaseAgent.call_llm]
    exact call_llm_loop_no_raise_sleeps client clock prompt maxRetries h maxRetries _
  · simp only [BaseAgent.call_llm]
    exact call_llm_loop_value client clock prompt maxRetries maxRetries _

/-- Witness for C6 at concrete inputs: a client always returning an invalid
response causes no sleeps and yields the fallback-or-content disjunction; a
client returning an empty-string content makes `run` answer with the stripped
fallback text. -/
theorem C6_invalid_response_policy_witness :
    (BaseAgent.call_llm (fun _ _ => .invalid) (fun _ => "T") defaultModelName "p" 3
        RunCtx.init).2.sleeps = RunCtx.init.sleeps ∧
    ((BaseAgent.call_llm (fun _ _ => .invalid) (fun _ => "T") defaultModelName "p" 3
          RunCtx.init).1 = PyVal.str BaseAgent.fallbackText ∨
      ∃ n, (fun (_ : Nat) (_ : String) => LLMOutcome.invalid) n "p" =
        LLMOutcome.content
          ((BaseAgent.call_llm (fun _ _ => .invalid) (fun _ => "T") defaultModelName "p" 3
            RunCtx.init).1)) ∧
    (BaseAgent.run (fun _ _ => .content (.str "")) (fun _ => "T") defaultModelName "i" "p"
        RunCtx.init).1.response = pyStrip BaseAgent.fallbackText :=
  ⟨C6_invalid_response_policy.1 _ _ defaultModelName "p" 3 RunCtx.init
      (fun _ _ h => LLMOutcome.noConfusion h),
   C6_invalid_response_policy.2.1 _ _ defaultModelName "p" 3 RunCtx.init,
   C6_invalid_response_policy.2.2 _ _ defaultModelName "i" "p" RunCtx.init (Or.inl rfl)⟩

/-- A head surviving `dropWhile p` fails `p`. -/
theorem head?_dropWhile_eq_some (p : Char → Bool) (l : List Char) (c : Char)
    (h : (l.dropWhile p).head? = some c) : p c = false := by
  have := List.head?_dropWhile_not p l
  rw [h] at this
  exact this

/-- The last character of a stripped string is not whitespace. -/
theorem getLast?_pyStrip (s : String) (c : Char)
    (h : (pyStrip s).data.getLast? = some c) : pySpace c = false := by
  simp only [pyStrip, List.getLast?_reverse] at h
  exact head?_dropWhile_eq_some _ _ _ h

/-- The first character of a stripped string is not whitespace. -/
theorem head?_pyStrip (s : String) (c : Char)
    (h : (pyStrip s).data.head? = some c) : pySpace c = false := by
  simp only [pyStrip, List.head?_reverse] at h
  set a := s.data.dropWhile pySpace with ha
  obtain ⟨t, ht⟩ := List.dropWhile_suffix (l := a.reverse) pySpace
  have h2 : a.reverse.getLast? = some c := by
    rw [← ht, List.getLast?_append, h]
    rfl
  rw [List.getLast?_reverse] at h2
  exact head?_dropWhile_eq_some _ _ _ h2

/-- `run` always returns the `strip` of some string (its final candidate). -/
theorem run_response_is_stripped (client : Client) (clock : Clock)
    (modelName inputsRepr formattedPrompt : String) (st : RunCtx) :
    ∃ x, (BaseAgent.run client clock modelName inputsRepr formattedPrompt st).1.response =
      pyStrip x := by
  cases hr : BaseAgent.call_llm client clock modelName formattedPrompt 3
      (BaseAgent.log_step clock st "INPUT" ("Received inputs: " ++ inputsRepr)) with
  | mk resp st2 =>
    cases resp with
    | str s =>
      by_cases hs : s = ""
      · refine ⟨BaseAgent.fallbackText, ?_⟩
        simp only [BaseAgent.run, hr]
        simp [hs, BaseAgent.get_fallback_response]
      · refine ⟨s, ?_⟩
        simp only [BaseAgent.run, hr]
        simp [hs]
    | nonStr r =>
      refine ⟨BaseAgent.fallbackText, ?_⟩
      simp only [BaseAgent.run, hr]
      simp [BaseAgent.get_fallback_response]

/-- C10 counterexample: a client whose response object carries the whitespace-
only content " " (a non-empty string, so `run`'s `not response or not
isinstance(response, str)` guard does not replace it) makes `run` return the
empty string after stripping — the claim that an invoked agent's returned
response field is always non-empty is false on the code. -/
theorem C10_counterexample :
    (BaseAgent.run (fun _ _ => .content (.str " ")) (fun _ => "T") defaultModelName "i" "p"
        RunCtx.init).1.response = "" ∧ (" " : String) ≠ "" :=
  ⟨rfl, by decide⟩

/-- C10 (amended): the response `run` returns never has leading or trailing
whitespace (its first and last characters, when present, are non-whitespace),
and an empty-string or non-string candidate is replaced by the fixed fallback
text, whose stripped form is non-empty; but a whitespace-only string candidate
passes the guard and strips to the empty string, so the returned response can
be empty. -/
theorem C10_response_trimmed (client : Client) (clock : Clock)
    (modelName inputsRepr formattedPrompt : String) (st : RunCtx) :
    (∀ c, ((BaseAgent.run client clock modelName inputsRepr formattedPrompt
        st).1.response).data.head? = some c → pySpace c = false) ∧
    (∀ c, ((BaseAgent.run client clock modelName inputsRepr formattedPrompt
        st).1.response).data.getLast? = some c → pySpace c = false) ∧
    (((BaseAgent.call_llm client clock modelName formattedPrompt 3
          (BaseAgent.log_step clock st "INPUT" ("Received inputs: " ++ inputsRepr))).1 =
        PyVal.str "" ∨
      ∃ s, (BaseAgent.call_llm client clock modelName formattedPrompt 3
          (BaseAgent.log_step clock st "INPUT" ("Received inputs: " ++ inputsRepr))).1 =
        PyVal.nonStr s) →
      (BaseAgent.run client clock modelName inputsRepr formattedPrompt st).1.response =
        pyStrip BaseAgent.fallbackText) ∧
    pyStrip BaseAgent.fallbackText ≠ "" := by
  obtain ⟨x, hx⟩ := run_response_is_stripped client clock modelName inputsRepr formattedPrompt st
  refine ⟨?_, ?_, run_fallback_substitution client clock modelName inputsRepr formattedPrompt st,
    by decide⟩
  · rw [hx]
    exact head?_pyStrip x
  · rw [hx]
    exact getLast?_pyStrip x

/-- Witness for C10 at concrete inputs: a client answering " x " yields the
response "x", whose head and last character 'x' is non-whitespace; a client
answering a non-string content makes `run` substitute the stripped fallback. -/
theorem C10_response_trimmed_witness :
    pySpace 'x' = false ∧
    (BaseAgent.run (fun _ _ => .content (.nonStr "[1]")) (fun _ => "T") defaultModelName "i" "p"
        RunCtx.init).1.response = pyStrip BaseAgent.fallbackText ∧
    pyStrip BaseAgent.fallbackText ≠ "" :=
  ⟨(C10_response_trimmed (fun _ _ => .content (.str " x ")) (fun _ => "T") defaultModelName
      "i" "p" RunCtx.init).1 'x' (by decide),
   (C10_response_trimmed (fun _ _ => .content (.nonStr "[1]")) (fun _ => "T") defaultModelName
      "i" "p" RunCtx.init).2.2.1 (Or.inr ⟨"[1]", rfl⟩),
   (C10_response_trimmed (fun _ _ => .content (.str "z")) (fun _ => "T") defaultModelName
      "i" "p" RunCtx.init).2.2.2⟩

/-- Projection form of `BaseAgent.run`, convenient for reasoning. -/
theorem run_eq (client : Client) (clock : Clock)
    (modelName inputsRepr formattedPrompt : String) (st : RunCtx) :
    BaseAgent.run client clock modelName inputsRepr formattedPrompt st =
      (let st1 := BaseAgent.log_step clock st "INPUT" ("Received inputs: " ++ inputsRepr)
       let p := BaseAgent.call_llm client clock modelName formattedPrompt 3 st1
       let q := match p.1 with
         | PyVal.str s => if s = "" then BaseAgent.get_fallback_response clock p.2 else (s, p.2)
         | PyVal.nonStr _ => BaseAgent.get_fallback_response clock p.2
       let stripped := pyStrip q.1
       let stF := BaseAgent.log_step clock q.2 "OUTPUT" ("Final response: " ++ stripped)
       ({ response := stripped, logs := stF.logs.map LogEntry.render }, stF)) := rfl

/-- The retry loop only appends to the log buffer. -/
theorem call_llm_loop_logs_mono (client : Client) (clock : Clock) (prompt : String)
    (maxRetries : Nat) :
    ∀ (remaining : Nat) (st : RunCtx),
      st.logs <+: (BaseAgent.call_llm_loop client clock prompt maxRetries remaining st).2.logs := by
  intro remaining
  induction remaining with
  | zero =>
    intro st
    simp only [BaseAgent.call_llm_loop, BaseAgent.get_fallback_response, BaseAgent.log_step]
    simp [List.append_assoc]
  | succ n ih =>
    intro st
    cases hc : client st.calls prompt with
    | raise e =>
      by_cases hn : n = 0
      · subst hn
        simp only [BaseAgent.call_llm_loop, BaseAgent.invokeLLM, BaseAgent.log_step,
          BaseAgent.get_fallback_response, hc]
        simp [List.append_assoc]
      · simp only [BaseAgent.call_llm_loop, BaseAgent.invokeLLM, BaseAgent.log_step, hc, hn,
          if_neg, ite_false]
        refine List.IsPrefix.trans ?_ (ih _)
        simp [List.append_assoc]
    | invalid =>
      simp only [BaseAgent.call_llm_loop, BaseAgent.invokeLLM, BaseAgent.log_step, hc]
      refine List.IsPrefix.trans ?_ (ih _)
      simp [List.append_assoc]
    | content v =>
      simp only [BaseAgent.call_llm_loop, BaseAgent.invokeLLM, BaseAgent.log_step, hc]
      simp [List.append_assoc]

/-- `_call_llm` only appends to the log buffer. -/
theorem call_llm_logs_mono (client : Client) (clock : Clock)
    (modelName prompt : String) (maxRetries : Nat) (st : RunCtx) :
    st.logs <+: (BaseAgent.call_llm client clock modelName prompt maxRetries st).2.logs := by
  simp only [BaseAgent.call_llm]
  refine List.IsPrefix.trans ?_ (call_llm_loop_logs_mono client clock prompt maxRetries _ _)
  simp [BaseAgent.log_step, List.append_assoc]

/-- `run` strictly extends the agent's log buffer (INPUT and OUTPUT entries at
least), and the returned `logs` list is the final buffer, rendered. -/
theorem run_logs (client : Client) (clock : Clock)
    (modelName inputsRepr formattedPrompt : String) (st : RunCtx) :
    (∃ new, new ≠ [] ∧
      (BaseAgent.run client clock modelName inputsRepr formattedPrompt st).2.logs =
        st.logs ++ new) ∧
    (BaseAgent.run client clock modelName inputsRepr formattedPrompt st).1.logs =
      ((BaseAgent.run client clock modelName inputsRepr formattedPrompt st).2.logs).map
        LogEntry.render := by
  rw [run_eq]
  simp only []
  refine ⟨?_, trivial⟩
  set st1 := BaseAgent.log_step clock st "INPUT" ("Received inputs: " ++ inputsRepr) with hst1
  set p := BaseAgent.call_llm client clock modelName formattedPrompt 3 st1 with hp
  have h1 : st1.logs <+: p.2.logs := call_llm_logs_mono client clock modelName formattedPrompt 3 st1
  have h2 : p.2.logs <+: (match p.1 with
      | PyVal.str s => if s = "" then BaseAgent.get_fallback_response clock p.2 else (s, p.2)
      | PyVal.nonStr _ => BaseAgent.get_fallback_response clock p.2).2.logs := by
    cases p.1 with
    | str s =>
      by_cases hs : s = ""
      · simp [hs, BaseAgent.get_fallback_response, BaseAgent.log_step]
      · simp [hs]
    | nonStr r => simp [BaseAgent.get_fallback_response, BaseAgent.log_step]
  have h3 : st.logs <+: st1.logs := by
    simp [hst1, BaseAgent.log_step]
  have hall : st.logs <+:
      (BaseAgent.log_step clock (match p.1 with
        | PyVal.str s => if s = "" then BaseAgent.get_fallback_response clock p.2 else (s, p.2)
        | PyVal.nonStr _ => BaseAgent.get_fallback_response clock p.2).2 "OUTPUT"
        ("Final response: " ++ pyStrip (match p.1 with
          | PyVal.str s => if s = "" then BaseAgent.get_fallback_response clock p.2 else (s, p.2)
          | PyVal.nonStr _ => BaseAgent.get_fallback_response clock p.2).1)).logs := by
    refine ((h3.trans h1).trans h2).trans ?_
    simp [BaseAgent.log_step]
  obtain ⟨d, hd⟩ := hall
  refine ⟨d, ?_, hd.symm⟩
  intro hdnil
  subst hdnil
  have hlen : st.logs.length < st1.logs.length := by
    simp [hst1, BaseAgent.log_step]
  have hlen2 : st1.logs.length ≤ p.2.logs.length := h1.length_le
  have hlen3 := h2.length_le
  rw [List.append_nil] at hd
  have : (BaseAgent.log_step clock (match p.1 with
      | PyVal.str s => if s = "" then BaseAgent.get_fallback_response clock p.2 else (s, p.2)
      | PyVal.nonStr _ => BaseAgent.get_fallback_response clock p.2).2 "OUTPUT"
      ("Final response: " ++ pyStrip (match p.1 with
        | PyVal.str s => if s = "" then BaseAgent.get_fallback_response clock p.2 else (s, p.2)
        | PyVal.nonStr _ => BaseAgent.get_fallback_response clock p.2).1)).logs.length =
      (match p.1 with
        | PyVal.str s => if s = "" then BaseAgent.get_fallback_response clock p.2 else (s, p.2)
        | PyVal.nonStr _ => BaseAgent.get_fallback_response clock p.2).2.logs.length + 1 := by
    simp [BaseAgent.log_step]
  rw [← hd] at this
  omega

/-- Projection form of `HospitalGraph.process_patient`. -/
theorem process_patient_eq (fdClient phClient radClient : Client) (clock : Clock)
    (pi : PatientInfo) (complaint medical_records : String) (g : GraphState) :
    HospitalGraph.process_patient fdClient phClient radClient clock pi complaint
        medical_records g =
      (let p1 := FrontDeskAgent.process_patient fdClient clock pi complaint g.fdCtx
       let g1 := g.setFd p1.2
       let p2 := PhysicianAgent.examine_patient phClient clock pi complaint medical_records
         g1.phCtx
       let g2 := g1.setPh p2.2
       if needs_imaging p2.1.response then
         let p3 := RadiologistAgent.analyze_imaging radClient clock pi p2.1.response
           medical_records g2.radCtx
         let g3 := g2.setRad p3.2
         (buildReport p1.1.response p2.1.response p3.1.response p1.1.logs p2.1.logs p3.1.logs, g3)
       else
         (buildReport p1.1.response p2.1.response "" p1.1.logs p2.1.logs [], g2)) := rfl

/-- The front-desk logs returned by `process_patient` are the front-desk
agent's pre-existing buffer (rendered) extended by at least one new entry, and
the final graph state holds exactly that list. -/
theorem process_patient_fd_logs (fdClient phClient radClient : Client) (clock : Clock)
    (pi : PatientInfo) (complaint medical_records : String) (g : GraphState) :
    ∃ d, d ≠ [] ∧
      (HospitalGraph.process_patient fdClient phClient radClient clock pi complaint
          medical_records g).1.front_desk_logs = (g.fdLogs).map LogEntry.render ++ d ∧
      ((HospitalGraph.process_patient fdClient phClient radClient clock pi complaint
          medical_records g).2.fdLogs).map LogEntry.render =
        (HospitalGraph.process_patient fdClient phClient radClient clock pi complaint
          medical_records g).1.front_desk_logs := by
  rw [process_patient_eq]
  simp only []
  obtain ⟨⟨new, hnew, happ⟩, hrender⟩ := run_logs fdClient clock defaultModelName
    (FrontDeskAgent.inputsRepr pi complaint) (FrontDeskAgent.formattedPrompt pi complaint)
    g.fdCtx
  refine ⟨new.map LogEntry.render, by simpa using hnew, ?_⟩
  by_cases hni : needs_imaging
      (PhysicianAgent.examine_patient phClient clock pi complaint medical_records
        ((g.setFd (FrontDeskAgent.process_patient fdClient clock pi complaint
          g.fdCtx).2).phCtx)).1.response <;>
    simp only [hni, if_true, if_false, ite_true, ite_false] <;>
    constructor
  · show (FrontDeskAgent.process_patient fdClient clock pi complaint g.fdCtx).1.logs = _
    simp only [FrontDeskAgent.process_patient]
    rw [hrender, happ]
    simp [GraphState.fdCtx]
  · show ((GraphState.setRad _ _).fdLogs).map LogEntry.render = _
    simp only [FrontDeskAgent.process_patient, GraphState.setRad, GraphState.setPh,
      GraphState.setFd]
    exact hrender
  · show (FrontDeskAgent.process_patient fdClient clock pi complaint g.fdCtx).1.logs = _
    simp only [FrontDeskAgent.process_patient]
    rw [hrender, happ]
    simp [GraphState.fdCtx]
  · show ((GraphState.setPh _ _).fdLogs).map LogEntry.render = _
    simp only [FrontDeskAgent.process_patient, GraphState.setPh, GraphState.setFd]
    exact hrender

/-- The physician logs returned by `process_patient` are the physician agent's
pre-existing buffer (rendered) extended by at least one new entry, and the
final graph state holds exactly that list. -/
theorem process_patient_ph_logs (fdClient phClient radClient : Client) (clock : Clock)
    (pi : PatientInfo) (complaint medical_records : String) (g : GraphState) :
    ∃ d, d ≠ [] ∧
      (HospitalGraph.process_patient fdClient phClient radClient clock pi complaint
          medical_records g).1.physician_logs = (g.phLogs).map LogEntry.render ++ d ∧
      ((HospitalGraph.process_patient fdClient phClient radClient clock pi complaint
          medical_records g).2.phLogs).map LogEntry.render =
        (HospitalGraph.process_patient fdClient phClient radClient clock pi complaint
          medical_records g).1.physician_logs := by
  rw [process_patient_eq]
  simp only []
  obtain ⟨⟨new, hnew, happ⟩, hrender⟩ := run_logs phClient clock defaultModelName
    (PhysicianAgent.inputsRepr pi complaint medical_records)
    (PhysicianAgent.formattedPrompt pi complaint medical_records)
    ((g.setFd (FrontDeskAgent.process_patient fdClient clock pi complaint g.fdCtx).2).phCtx)
  refine ⟨new.map LogEntry.render, by simpa using hnew, ?_⟩
  by_cases hni : needs_imaging
      (PhysicianAgent.examine_patient phClient clock pi complaint medical_records
        ((g.setFd (FrontDeskAgent.process_patient fdClient clock pi complaint
          g.fdCtx).2).phCtx)).1.response <;>
    simp only [hni, if_true, if_false, ite_true, ite_false] <;>
    constructor
  · show (PhysicianAgent.examine_patient phClient clock pi complaint medical_records _).1.logs = _
    simp only [PhysicianAgent.examine_patient]
    rw [hrender, happ]
    simp [GraphState.phCtx, GraphState.setFd]
  · show ((GraphState.setRad _ _).phLogs).map LogEntry.render = _
    simp only [PhysicianAgent.examine_patient, GraphState.setRad, GraphState.setPh]
    exact hrender
  · show (PhysicianAgent.examine_patient phClient clock pi complaint medical_records _).1.logs = _
    simp only [PhysicianAgent.examine_patient]
    rw [hrender, happ]
    simp [GraphState.phCtx, GraphState.setFd]
  · show ((GraphState.setPh _ _).phLogs).map LogEntry.render = _
    simp only [PhysicianAgent.examine_patient, GraphState.setPh]
    exact hrender

/-- The formatted markdown documents of the report are `assessmentDoc` and
`logsDoc` of the report's own stage fields. -/
theorem process_patient_formatted (fdClient phClient radClient : Client) (clock : Clock)
    (pi : PatientInfo) (complaint medical_records : String) (g : GraphState) :
    (HospitalGraph.process_patient fdClient phClient radClient clock pi complaint
        medical_records g).1.formatted_assessment =
      assessmentDoc
        (HospitalGraph.process_patient fdClient phClient radClient clock pi complaint
          medical_records g).1.front_desk_assessment
        (HospitalGraph.process_patient fdClient phClient radClient clock pi complaint
          medical_records g).1.physician_assessment
        (HospitalGraph.process_patient fdClient phClient radClient clock pi complaint
          medical_records g).1.radiology_report ∧
    (HospitalGraph.process_patient fdClient phClient radClient clock pi complaint
        medical_records g).1.formatted_logs =
      logsDoc
        (HospitalGraph.process_patient fdClient phClient radClient clock pi complaint
          medical_records g).1.front_desk_logs
        (HospitalGraph.process_patient fdClient phClient radClient clock pi complaint
          medical_records g).1.physician_logs
        (HospitalGraph.process_patient fdClient phClient radClient clock pi complaint
          medical_records g).1.radiologist_logs := by
  rw [process_patient_eq]
  simp only []
  by_cases hni : needs_imaging
      (PhysicianAgent.examine_patient phClient clock pi complaint medical_records
        ((g.setFd (FrontDeskAgent.process_patient fdClient clock pi complaint
          g.fdCtx).2).phCtx)).1.response <;>
    simp [hni, buildReport]

/-- C7: whenever the physician assessment in the returned report does not
contain "imaging" (case-insensitively), the radiology report is empty, the
radiologist log list is empty, the formatted assessment consists of exactly
the two sections Front Desk and Physician (no Radiology section), the
formatted log transcript consists of exactly the two fenced blocks (no
Radiologist Logs block), and the radiologist agent is never invoked: its
log buffer and its client-call counter are untouched. -/
theorem C7_skip_path (fdClient phClient radClient : Client) (clock : Clock)
    (pi : PatientInfo) (complaint medical_records : String) (g : GraphState)
    (h : needs_imaging (HospitalGraph.process_patient fdClient phClient radClient clock pi
      complaint medical_records g).1.physician_assessment = false) :
    (HospitalGraph.process_patient fdClient phClient radClient clock pi complaint
        medical_records g).1.radiology_report = "" ∧
    (HospitalGraph.process_patient fdClient phClient radClient clock pi complaint
        medical_records g).1.radiologist_logs = [] ∧
    (HospitalGraph.process_patient fdClient phClient radClient clock pi complaint
        medical_records g).1.formatted_assessment =
      "\n# Medical Assessment Report\n\n## 1. Front Desk Assessment\n" ++
        (HospitalGraph.process_patient fdClient phClient radClient clock pi complaint
          medical_records g).1.front_desk_assessment ++
        "\n\n## 2. Physician Assessment\n" ++
        (HospitalGraph.process_patient fdClient phClient radClient clock pi complaint
          medical_records g).1.physician_assessment ++ "\n" ∧
    (HospitalGraph.process_patient fdClient phClient radClient clock pi complaint
        medical_records g).1.formatted_logs =
      "\n# Processing Logs\n\n## Front Desk Logs\n```\n" ++
        pyJoin "\n" (HospitalGraph.process_patient fdClient phClient radClient clock pi
          complaint medical_records g).1.front_desk_logs ++
        "\n```\n\n## Physician Logs\n```\n" ++
        pyJoin "\n" (HospitalGraph.process_patient fdClient phClient radClient clock pi
          complaint medical_records g).1.physician_logs ++ "\n```\n" ∧
    (HospitalGraph.process_patient fdClient phClient radClient clock pi complaint
        medical_records g).2.radLogs = g.radLogs ∧
    (HospitalGraph.process_patient fdClient phClient radClient clock pi complaint
        medical_records g).2.radCalls = g.radCalls := by
  rw [process_patient_eq] at h ⊢
  simp only [] at h ⊢
  by_cases hni : needs_imaging
      (PhysicianAgent.examine_patient phClient clock pi complaint medical_records
        ((g.setFd (FrontDeskAgent.process_patient fdClient clock pi complaint
          g.fdCtx).2).phCtx)).1.response
  · rw [if_pos hni] at h
    simp only [buildReport] at h
    rw [hni] at h
    cases h
  · rw [if_neg hni] at h ⊢
    simp [buildReport, assessmentDoc, logsDoc, GraphState.setPh, GraphState.setFd]

/-- Witness for C7: concrete deterministic clients whose physician answer
"No further tests needed" lacks "imaging". -/
theorem C7_skip_path_witness :
    (HospitalGraph.process_patient (fun _ _ => .content (.str "Please take a seat."))
        (fun _ _ => .content (.str "No further tests needed"))
        (fun _ _ => .content (.str "radiology text")) (fun _ => "2024-01-01 00:00:00")
        ⟨"Asha Rao", "P1", "30", "F"⟩ "chest pain" "" GraphState.init).1.radiology_report = "" ∧
    (HospitalGraph.process_patient (fun _ _ => .content (.str "Please take a seat."))
        (fun _ _ => .content (.str "No further tests needed"))
        (fun _ _ => .content (.str "radiology text")) (fun _ => "2024-01-01 00:00:00")
        ⟨"Asha Rao", "P1", "30", "F"⟩ "chest pain" "" GraphState.init).1.radiologist_logs = [] ∧
    (HospitalGraph.process_patient (fun _ _ => .content (.str "Please take a seat."))
        (fun _ _ => .content (.str "No further tests needed"))
        (fun _ _ => .content (.str "radiology text")) (fun _ => "2024-01-01 00:00:00")
        ⟨"Asha Rao", "P1", "30", "F"⟩ "chest pain" "" GraphState.init).2.radCalls =
      GraphState.init.radCalls :=
  ⟨(C7_skip_path (fun _ _ => .content (.str "Please take a seat."))
      (fun _ _ => .content (.str "No further tests needed"))
      (fun _ _ => .content (.str "radiology text")) (fun _ => "2024-01-01 00:00:00")
      ⟨"Asha Rao", "P1", "30", "F"⟩ "chest pain" "" GraphState.init (by decide)).1,
   (C7_skip_path (fun _ _ => .content (.str "Please take a seat."))
      (fun _ _ => .content (.str "No further tests needed"))
      (fun _ _ => .content (.str "radiology text")) (fun _ => "2024-01-01 00:00:00")
      ⟨"Asha Rao", "P1", "30", "F"⟩ "chest pain" "" GraphState.init (by decide)).2.1,
   (C7_skip_path (fun _ _ => .content (.str "Please take a seat."))
      (fun _ _ => .content (.str "No further tests needed"))
      (fun _ _ => .content (.str "radiology text")) (fun _ => "2024-01-01 00:00:00")
      ⟨"Asha Rao", "P1", "30", "F"⟩ "chest pain" "" GraphState.init (by decide)).2.2.2.2.2⟩

/-- C3 (amended): the log buffers live on the agent instances and are never
cleared, so for two consecutive `process_patient` calls on the same
orchestrator (any inputs), the front-desk log sequence returned by the second
call is the first call's returned sequence extended by the new entries — every
entry of the earlier call carries over. -/
theorem C3_log_carryover (fdClient phClient radClient : Client) (clock : Clock)
    (pi pi2 : PatientInfo) (complaint mr complaint2 mr2 : String) (g : GraphState) :
    ∃ d, d ≠ [] ∧
      (HospitalGraph.process_patient fdClient phClient radClient clock pi2 complaint2 mr2
        (HospitalGraph.process_patient fdClient phClient radClient clock pi complaint mr
          g).2).1.front_desk_logs =
      (HospitalGraph.process_patient fdClient phClient radClient clock pi complaint mr
        g).1.front_desk_logs ++ d := by
  obtain ⟨d1, hd1, h1app, h1render⟩ :=
    process_patient_fd_logs fdClient phClient radClient clock pi complaint mr g
  obtain ⟨d2, hd2, h2app, h2render⟩ :=
    process_patient_fd_logs fdClient phClient radClient clock pi2 complaint2 mr2
      (HospitalGraph.process_patient fdClient phClient radClient clock pi complaint mr g).2
  exact ⟨d2, hd2, by rw [h2app, h1render]⟩

/-- C3 counterexample: with a concrete deterministic client and two identical
`process_patient` calls on the same orchestrator, some log entry of the first
call's returned front-desk log sequence also appears in the second call's
returned front-desk log sequence — the later run's sequence does not begin
fresh. -/
theorem C3_counterexample : ∃ e,
    e ∈ (HospitalGraph.process_patient (fun _ _ => .content (.str "Take a seat."))
        (fun _ _ => .content (.str "Rest and fluids."))
        (fun _ _ => .content (.str "No acute findings.")) (fun _ => "2024-01-01 00:00:00")
        ⟨"Asha Rao", "P1", "30", "F"⟩ "headache" "" GraphState.init).1.front_desk_logs ∧
    e ∈ (HospitalGraph.process_patient (fun _ _ => .content (.str "Take a seat."))
        (fun _ _ => .content (.str "Rest and fluids."))
        (fun _ _ => .content (.str "No acute findings.")) (fun _ => "2024-01-01 00:00:00")
        ⟨"Asha Rao", "P1", "30", "F"⟩ "headache" ""
        (HospitalGraph.process_patient (fun _ _ => .content (.str "Take a seat."))
          (fun _ _ => .content (.str "Rest and fluids."))
          (fun _ _ => .content (.str "No acute findings.")) (fun _ => "2024-01-01 00:00:00")
          ⟨"Asha Rao", "P1", "30", "F"⟩ "headache" ""
          GraphState.init).2).1.front_desk_logs := by
  obtain ⟨d1, hd1, h1app, h1render⟩ := process_patient_fd_logs
    (fun _ _ => .content (.str "Take a seat.")) (fun _ _ => .content (.str "Rest and fluids."))
    (fun _ _ => .content (.str "No acute findings.")) (fun _ => "2024-01-01 00:00:00")
    ⟨"Asha Rao", "P1", "30", "F"⟩ "headache" "" GraphState.init
  obtain ⟨d2, hd2, h2app, h2render⟩ := process_patient_fd_logs
    (fun _ _ => .content (.str "Take a seat.")) (fun _ _ => .content (.str "Rest and fluids."))
    (fun _ _ => .content (.str "No acute findings.")) (fun _ => "2024-01-01 00:00:00")
    ⟨"Asha Rao", "P1", "30", "F"⟩ "headache" ""
    (HospitalGraph.process_patient (fun _ _ => .content (.str "Take a seat."))
      (fun _ _ => .content (.str "Rest and fluids."))
      (fun _ _ => .content (.str "No acute findings.")) (fun _ => "2024-01-01 00:00:00")
      ⟨"Asha Rao", "P1", "30", "F"⟩ "headache" "" GraphState.init).2
  rw [h1render] at h2app
  have hinit : (GraphState.init.fdLogs).map LogEntry.render = ([] : List String) := rfl
  rw [hinit, List.nil_append] at h1app
  have hne : (HospitalGraph.process_patient (fun _ _ => .content (.str "Take a seat."))
      (fun _ _ => .content (.str "Rest and fluids."))
      (fun _ _ => .content (.str "No acute findings.")) (fun _ => "2024-01-01 00:00:00")
      ⟨"Asha Rao", "P1", "30", "F"⟩ "headache" ""
      GraphState.init).1.front_desk_logs ≠ [] := by
    rw [h1app]
    exact hd1
  obtain ⟨e, rest, he⟩ := List.exists_cons_of_ne_nil hne
  refine ⟨e, ?_, ?_⟩
  · rw [he]
    exact List.mem_cons_self _ _
  · rw [h2app, he]
    exact List.mem_append_left _ (List.mem_cons_self _ _)

/-- With a client whose outcome does not depend on the call index, the value
the retry loop produces does not depend on the starting state. -/
theorem call_llm_loop_value_stable (client : Client) (clock : Clock) (prompt : String)
    (maxRetries : Nat) (h : ∀ n m p, client n p = client m p) :
    ∀ (remaining : Nat) (st st' : RunCtx),
      (BaseAgent.call_llm_loop client clock prompt maxRetries remaining st).1 =
        (BaseAgent.call_llm_loop client clock prompt maxRetries remaining st').1 := by
  intro remaining
  induction remaining with
  | zero =>
    intro st st'
    simp [BaseAgent.call_llm_loop, BaseAgent.get_fallback_response]
  | succ n ih =>
    intro st st'
    have hc : client st'.calls prompt = client st.calls prompt := h _ _ _
    cases hcc : client st.calls prompt with
    | raise e =>
      rw [hcc] at hc
      by_cases hn : n = 0
      · subst hn
        simp [BaseAgent.call_llm_loop, BaseAgent.invokeLLM, BaseAgent.log_step,
          BaseAgent.get_fallback_response, hcc, hc]
      · simp only [BaseAgent.call_llm_loop, BaseAgent.invokeLLM, BaseAgent.log_step, hcc, hc,
          hn, if_neg, ite_false]
        exact ih _ _
    | invalid =>
      rw [hcc] at hc
      simp only [BaseAgent.call_llm_loop, BaseAgent.invokeLLM, BaseAgent.log_step, hcc, hc]
      exact ih _ _
    | content v =>
      rw [hcc] at hc
      simp [BaseAgent.call_llm_loop, BaseAgent.invokeLLM, BaseAgent.log_step, hcc, hc]

/-- With an index-independent client, the value of `_call_llm` does not depend
on the starting state. -/
theorem call_llm_value_stable (client : Client) (clock : Clock)
    (modelName prompt : String) (maxRetries : Nat) (h : ∀ n m p, client n p = client m p)
    (st st' : RunCtx) :
    (BaseAgent.call_llm client clock modelName prompt maxRetries st).1 =
      (BaseAgent.call_llm client clock modelName prompt maxRetries st').1 := by
  simp only [BaseAgent.call_llm]
  exact call_llm_loop_value_stable client clock prompt maxRetries h maxRetries _ _

/-- The candidate `run` keeps after the empty/non-string guard, as a function
of the `_call_llm` value alone. -/
theorem substitution_value (clock : Clock) (v : PyVal) (c : RunCtx) :
    (match v with
      | PyVal.str s => if s = "" then BaseAgent.get_fallback_response clock c else (s, c)
      | PyVal.nonStr _ => BaseAgent.get_fallback_response clock c).1 =
      (match v with
        | PyVal.str s => if s = "" then BaseAgent.fallbackText else s
        | PyVal.nonStr _ => BaseAgent.fallbackText) := by
  cases v with
  | str s =>
    by_cases hs : s = "" <;> simp [hs, BaseAgent.get_fallback_response]
  | nonStr r => simp [BaseAgent.get_fallback_response]

/-- With an index-independent client and a fixed formatted prompt, the
response `run` returns does not depend on the agent's prior state. -/
theorem run_response_stable (client : Client) (clock : Clock)
    (modelName inputsRepr inputsRepr' formattedPrompt : String)
    (h : ∀ n m p, client n p = client m p) (st st' : RunCtx) :
    (BaseAgent.run client clock modelName inputsRepr formattedPrompt st).1.response =
      (BaseAgent.run client clock modelName inputsRepr' formattedPrompt st').1.response := by
  rw [run_eq, run_eq]
  simp only []
  rw [substitution_value, substitution_value]
  rw [call_llm_value_stable client clock modelName formattedPrompt 3 h
    (BaseAgent.log_step clock st "INPUT" ("Received inputs: " ++ inputsRepr))
    (BaseAgent.log_step clock st' "INPUT" ("Received inputs: " ++ inputsRepr'))]

/-- C9 (amended): with deterministic stub clients (outcome independent of the
call index), the three response fields and the formatted assessment of
`process_patient` are byte-identical across runs with identical inputs from
any two orchestrator states — in particular across a first and a second run on
the same orchestrator.  (The formatted log transcript is not: see the
counterexample.) -/
theorem C9_assessment_deterministic (fdClient phClient radClient : Client) (clock : Clock)
    (pi : PatientInfo) (complaint medical_records : String)
    (hfd : ∀ n m p, fdClient n p = fdClient m p)
    (hph : ∀ n m p, phClient n p = phClient m p)
    (hrad : ∀ n m p, radClient n p = radClient m p)
    (g g' : GraphState) :
    (HospitalGraph.process_patient fdClient phClient radClient clock pi complaint
        medical_records g).1.front_desk_assessment =
      (HospitalGraph.process_patient fdClient phClient radClient clock pi complaint
        medical_records g').1.front_desk_assessment ∧
    (HospitalGraph.process_patient fdClient phClient radClient clock pi complaint
        medical_records g).1.physician_assessment =
      (HospitalGraph.process_patient fdClient phClient radClient clock pi complaint
        medical_records g').1.physician_assessment ∧
    (HospitalGraph.process_patient fdClient phClient radClient clock pi complaint
        medical_records g).1.radiology_report =
      (HospitalGraph.process_patient fdClient phClient radClient clock pi complaint
        medical_records g').1.radiology_report ∧
    (HospitalGraph.process_patient fdClient phClient radClient clock pi complaint
        medical_records g).1.formatted_assessment =
      (HospitalGraph.process_patient fdClient phClient radClient clock pi complaint
        medical_records g').1.formatted_assessment := by
  rw [process_patient_eq, process_patient_eq]
  simp only []
  have h1 : (FrontDeskAgent.process_patient fdClient clock pi complaint g.fdCtx).1.response =
      (FrontDeskAgent.process_patient fdClient clock pi complaint g'.fdCtx).1.response := by
    simp only [FrontDeskAgent.process_patient]
    exact run_response_stable fdClient clock defaultModelName _ _ _ hfd _ _
  have h2 : (PhysicianAgent.examine_patient phClient clock pi complaint medical_records
        ((g.setFd (FrontDeskAgent.process_patient fdClient clock pi complaint
          g.fdCtx).2).phCtx)).1.response =
      (PhysicianAgent.examine_patient phClient clock pi complaint medical_records
        ((g'.setFd (FrontDeskAgent.process_patient fdClient clock pi complaint
          g'.fdCtx).2).phCtx)).1.response := by
    simp only [PhysicianAgent.examine_patient]
    exact run_response_stable phClient clock defaultModelName _ _ _ hph _ _
  by_cases hni : needs_imaging
      (PhysicianAgent.examine_patient phClient clock pi complaint medical_records
        ((g.setFd (FrontDeskAgent.process_patient fdClient clock pi complaint
          g.fdCtx).2).phCtx)).1.response
  · have hni' : needs_imaging
        (PhysicianAgent.examine_patient phClient clock pi complaint medical_records
          ((g'.setFd (FrontDeskAgent.process_patient fdClient clock pi complaint
            g'.fdCtx).2).phCtx)).1.response = true := by
      rw [← h2]
      exact hni
    have h3 : (RadiologistAgent.analyze_imaging radClient clock pi
          (PhysicianAgent.examine_patient phClient clock pi complaint medical_records
            ((g.setFd (FrontDeskAgent.process_patient fdClient clock pi complaint
              g.fdCtx).2).phCtx)).1.response medical_records
          (((g.setFd (FrontDeskAgent.process_patient fdClient clock pi complaint
            g.fdCtx).2).setPh (PhysicianAgent.examine_patient phClient clock pi complaint
              medical_records ((g.setFd (FrontDeskAgent.process_patient fdClient clock pi
                complaint g.fdCtx).2).phCtx)).2).radCtx)).1.response =
        (RadiologistAgent.analyze_imaging radClient clock pi
          (PhysicianAgent.examine_patient phClient clock pi complaint medical_records
            ((g'.setFd (FrontDeskAgent.process_patient fdClient clock pi complaint
              g'.fdCtx).2).phCtx)).1.response medical_records
          (((g'.setFd (FrontDeskAgent.process_patient fdClient clock pi complaint
            g'.fdCtx).2).setPh (PhysicianAgent.examine_patient phClient clock pi complaint
              medical_records ((g'.setFd (FrontDeskAgent.process_patient fdClient clock pi
                complaint g'.fdCtx).2).phCtx)).2).radCtx)).1.response := by
      rw [← h2]
      simp only [RadiologistAgent.analyze_imaging]
      exact run_response_stable radClient clock defaultModelName _ _ _ hrad _ _
    rw [if_pos hni, if_pos hni']
    simp only [buildReport]
    exact ⟨h1, h2, h3, by rw [h3, h1, h2]⟩
  · have hni' : needs_imaging
        (PhysicianAgent.examine_patient phClient clock pi complaint medical_records
          ((g'.setFd (FrontDeskAgent.process_patient fdClient clock pi complaint
            g'.fdCtx).2).phCtx)).1.response = false := by
      rw [← h2]
      simp only [Bool.not_eq_true] at hni
      exact hni
    rw [if_neg hni, if_neg (by simp [hni'])]
    simp only [buildReport]
    exact ⟨h1, h2, by trivial, by rw [h1, h2]⟩

/-- `sep.join` over the concatenation of two non-empty lists. -/
theorem pyJoin_append (sep : String) (l d : List String) (hl : l ≠ []) (hd : d ≠ []) :
    pyJoin sep (l ++ d) = pyJoin sep l ++ sep ++ pyJoin sep d := by
  induction l with
  | nil => exact absurd rfl hl
  | cons x xs ih =>
    cases xs with
    | nil =>
      cases d with
      | nil => exact absurd rfl hd
      | cons y ys => simp [pyJoin]
    | cons y ys =>
      have h2 : pyJoin sep ((x :: y :: ys) ++ d) = x ++ sep ++ pyJoin sep ((y :: ys) ++ d) := by
        cases d with
        | nil => exact absurd rfl hd
        | cons z zs => rfl
      rw [h2, ih (by simp)]
      have h3 : pyJoin sep (x :: y :: ys) = x ++ sep ++ pyJoin sep (y :: ys) := rfl
      rw [h3]
      simp [String.append_assoc]

/-- Concrete deterministic front-desk stub client for the C9 runs. -/
def c9Client1 : Client := fun _ _ => .content (.str "Welcome to the clinic.")

/-- Concrete deterministic physician stub client for the C9 runs (its answer
contains no "imaging"). -/
def c9Client2 : Client := fun _ _ => .content (.str "Plenty of rest.")

/-- Concrete deterministic radiologist stub client for the C9 runs. -/
def c9Client3 : Client := fun _ _ => .content (.str "Clear lungs.")

/-- Constant clock: even the timestamps of the two C9 runs coincide. -/
def c9Clock : Clock := fun _ => "2024-01-01 00:00:00"

/-- Concrete patient of the C9 runs. -/
def c9Pi : PatientInfo := ⟨"Asha Rao", "P1", "30", "F"⟩

/-- First `process_patient` run on a fresh orchestrator. -/
def c9Run1 : Report × GraphState :=
  HospitalGraph.process_patient c9Client1 c9Client2 c9Client3 c9Clock c9Pi "headache" ""
    GraphState.init

/-- Second `process_patient` run, same inputs, on the orchestrator state the
first run left behind. -/
def c9Run2 : Report × GraphState :=
  HospitalGraph.process_patient c9Client1 c9Client2 c9Client3 c9Clock c9Pi "headache" ""
    c9Run1.2

/-- C9 counterexample: for the two identical-input runs `c9Run1`/`c9Run2` with
deterministic stub clients and even a constant clock, the returned FinalReports
are not byte-identical: the formatted log transcript of the second run strictly
extends the first's stage segments, because the agents' log buffers persist
across calls.  (The formatted assessments do coincide; the conjunction the
claim asserts is false.) -/
theorem C9_counterexample :
    ¬ (c9Run1.1.formatted_assessment = c9Run2.1.formatted_assessment ∧
       c9Run1.1.formatted_logs = c9Run2.1.formatted_logs) := by
  rintro ⟨-, hB⟩
  have hfmt1 := (process_patient_formatted c9Client1 c9Client2 c9Client3 c9Clock c9Pi
    "headache" "" GraphState.init).2
  have hfmt2 := (process_patient_formatted c9Client1 c9Client2 c9Client3 c9Clock c9Pi
    "headache" "" c9Run1.2).2
  have hrad1 : c9Run1.1.radiologist_logs = [] := rfl
  have hrad2 : c9Run2.1.radiologist_logs = [] := rfl
  rw [show c9Run1.1.formatted_logs = (HospitalGraph.process_patient c9Client1 c9Client2
      c9Client3 c9Clock c9Pi "headache" "" GraphState.init).1.formatted_logs from rfl,
    hfmt1] at hB
  rw [show c9Run2.1.formatted_logs = (HospitalGraph.process_patient c9Client1 c9Client2
      c9Client3 c9Clock c9Pi "headache" "" c9Run1.2).1.formatted_logs from rfl,
    hfmt2] at hB
  rw [show (HospitalGraph.process_patient c9Client1 c9Client2 c9Client3 c9Clock c9Pi
      "headache" "" GraphState.init).1.radiologist_logs = [] from hrad1] at hB
  rw [show (HospitalGraph.process_patient c9Client1 c9Client2 c9Client3 c9Clock c9Pi
      "headache" "" c9Run1.2).1.radiologist_logs = [] from hrad2] at hB
  simp only [logsDoc, eq_self_iff_true, if_true] at hB
  obtain ⟨d1, hd1, h1app, h1render⟩ := process_patient_fd_logs c9Client1 c9Client2 c9Client3
    c9Clock c9Pi "headache" "" GraphState.init
  obtain ⟨d2, hd2, h2app, h2render⟩ := process_patient_fd_logs c9Client1 c9Client2 c9Client3
    c9Clock c9Pi "headache" "" c9Run1.2
  obtain ⟨e1, he1, p1app, p1render⟩ := process_patient_ph_logs c9Client1 c9Client2 c9Client3
    c9Clock c9Pi "headache" "" GraphState.init
  obtain ⟨e2, he2, p2app, p2render⟩ := process_patient_ph_logs c9Client1 c9Client2 c9Client3
    c9Clock c9Pi "headache" "" c9Run1.2
  have h1render2 : List.map LogEntry.render c9Run1.2.fdLogs =
      (HospitalGraph.process_patient c9Client1 c9Client2 c9Client3 c9Clock c9Pi "headache" ""
        GraphState.init).1.front_desk_logs := h1render
  have p1render2 : List.map LogEntry.render c9Run1.2.phLogs =
      (HospitalGraph.process_patient c9Client1 c9Client2 c9Client3 c9Clock c9Pi "headache" ""
        GraphState.init).1.physician_logs := p1render
  rw [h1render2] at h2app
  rw [p1render2] at p2app
  have hinitfd : (GraphState.init.fdLogs).map LogEntry.render = ([] : List String) := rfl
  have hinitph : (GraphState.init.phLogs).map LogEntry.render = ([] : List String) := rfl
  rw [hinitfd, List.nil_append] at h1app
  rw [hinitph, List.nil_append] at p1app
  have hfd1ne : (HospitalGraph.process_patient c9Client1 c9Client2 c9Client3 c9Clock c9Pi
      "headache" "" GraphState.init).1.front_desk_logs ≠ [] := by
    rw [h1app]
    exact hd1
  have hph1ne : (HospitalGraph.process_patient c9Client1 c9Client2 c9Client3 c9Clock c9Pi
      "headache" "" GraphState.init).1.physician_logs ≠ [] := by
    rw [p1app]
    exact he1
  have hlen := congrArg String.length hB
  rw [h2app, p2app, pyJoin_append "\n" _ d2 hfd1ne hd2,
    pyJoin_append "\n" _ e2 hph1ne he2] at hlen
  simp only [String.length_append] at hlen
  have hnl : ("\n" : String).length = 1 := by decide
  omega

/-- Witness for C9 (amended) at the concrete runs: all response fields and the
formatted assessment agree between the two runs. -/
theorem C9_assessment_deterministic_witness :
    c9Run1.1.front_desk_assessment = c9Run2.1.front_desk_assessment ∧
    c9Run1.1.physician_assessment = c9Run2.1.physician_assessment ∧
    c9Run1.1.radiology_report = c9Run2.1.radiology_report ∧
    c9Run1.1.formatted_assessment = c9Run2.1.formatted_assessment :=
  C9_assessment_deterministic c9Client1 c9Client2 c9Client3 c9Clock c9Pi "headache" ""
    (fun _ _ _ => rfl) (fun _ _ _ => rfl) (fun _ _ _ => rfl) GraphState.init c9Run1.2
